import Mathlib

/-!
Shallow embedding of the n8n enterprise-override shim:
* backend `LicenseService` (src/unnamed/part_000): monkey-patches a shared
  license object so every feature check returns a forced constant, and
  replaces the license lifecycle operations with canned successes;
* frontend settings store
  (src/packages/frontend/editor-ui/src/stores/settings.store.ts): a Pinia
  store whose enterprise-feature getters are hard-wired to `true` and whose
  payload-ingestion routine patches the fetched payload in place.

Machine integers: JavaScript `Number.MAX_SAFE_INTEGER` is modelled as the
natural number 2 ^ 53 - 1.  Asynchronous operations are modelled by explicit
outcome parameters (what the awaited collaborator did) and `Except` results
(a rejected promise is `Except.error`).
-/

/-- JavaScript `Number.MAX_SAFE_INTEGER`, the sentinel used by the override
for every "unlimited" numeric limit. -/
def maxSafeInteger : Nat := 2 ^ 53 - 1

/-- A structured value carried in event payloads and log fields
(strings, booleans and numbers occur in the source). -/
inductive FieldValue where
  | s (v : String)
  | b (v : Bool)
  | n (v : Nat)
  deriving Repr, DecidableEq

/-- One log line: message plus structured fields
(models calls to `this.logger.info`). -/
structure LogEntry where
  message : String
  fields : List (String × FieldValue)
  deriving Repr, DecidableEq

/-- One emitted domain event: name plus structured payload
(models calls to `this.eventService.emit`). -/
structure DomainEvent where
  name : String
  payload : List (String × FieldValue)
  deriving Repr, DecidableEq

namespace Backend

/-- Result of `license.getMainPlan()` as forced by the override
(part_000 lines 63-67); `productMetadata` is the empty object. -/
structure MainPlan where
  productId : String
  productName : String
  productMetadata : List (String × FieldValue)
  deriving Repr, DecidableEq

/-- The shared license object: one slot per method the override touches
(part_000 lines 43-78), plus the activation surface (`activate`), which the
override leaves in place.  Slots are functions so that the unpatched object
can hold arbitrary real check logic. -/
structure License where
  getTriggerLimit : Unit → Nat
  getPlanName : Unit → String
  isFeatureEnabled : String → Bool
  hasValidLicense : Unit → Bool
  isVariablesEnabled : Unit → Bool
  getVariablesLimit : Unit → Nat
  isAdvancedPermissionsEnabled : Unit → Bool
  isSourceControlEnabled : Unit → Bool
  isAuditLogsEnabled : Unit → Bool
  isSsoEnabled : Unit → Bool
  isLogStreamingEnabled : Unit → Bool
  isApiDisabled : Unit → Bool
  isWorkflowHistoryEnabled : Unit → Bool
  isDebugInEditorEnabled : Unit → Bool
  isBinaryDataS3Enabled : Unit → Bool
  isMultipleMainInstancesEnabled : Unit → Bool
  getMainPlan : Unit → MainPlan
  getUsersLimit : Unit → Nat
  isWithinUsersLimit : Unit → Bool
  getWorkflowLimit : Unit → Nat
  isWithinWorkflowLimit : Unit → Bool
  getManagementJwt : Unit → String
  activate : String → Except String Unit

/-- The secondary license-state object whose two lookups the override also
replaces (part_000 lines 81-82). -/
structure LicenseState where
  getMaxWorkflowsWithEvaluations : Unit → Nat
  isFeatureEnabled : String → Bool

/-- `patchLicenseForEnterprise` (part_000 lines 41-85): replaces every
feature-check and limit-check slot on the license object and on the
license-state object with a constant-returning closure.  The single
`logger.info` call at line 84 is its only other effect. -/
def patchLicenseForEnterprise (license : License) (licenseState : LicenseState) :
    License × LicenseState :=
  ({ license with
      getTriggerLimit := fun _ => maxSafeInteger
      getPlanName := fun _ => "Enterprise"
      isFeatureEnabled := fun _ => true
      hasValidLicense := fun _ => true
      isVariablesEnabled := fun _ => true
      getVariablesLimit := fun _ => maxSafeInteger
      isAdvancedPermissionsEnabled := fun _ => true
      isSourceControlEnabled := fun _ => true
      isAuditLogsEnabled := fun _ => true
      isSsoEnabled := fun _ => true
      isLogStreamingEnabled := fun _ => true
      isApiDisabled := fun _ => false
      isWorkflowHistoryEnabled := fun _ => true
      isDebugInEditorEnabled := fun _ => true
      isBinaryDataS3Enabled := fun _ => true
      isMultipleMainInstancesEnabled := fun _ => true
      getMainPlan := fun _ =>
        { productId := "enterprise-unlimited"
          productName := "Enterprise Unlimited"
          productMetadata := [] }
      getUsersLimit := fun _ => maxSafeInteger
      isWithinUsersLimit := fun _ => true
      getWorkflowLimit := fun _ => maxSafeInteger
      isWithinWorkflowLimit := fun _ => true
      getManagementJwt := fun _ => "enterprise-bypass-token" },
   { licenseState with
      getMaxWorkflowsWithEvaluations := fun _ => maxSafeInteger
      isFeatureEnabled := fun _ => true })

/-- A usage record as produced by `getLicenseData`: current `value` against a
`limit`.  The floating-point `warningThreshold: 0.8` field present on some
records is not part of any claim and is left out of the embedding. -/
structure UsageEntry where
  value : Nat
  limit : Nat
  deriving Repr, DecidableEq

/-- The `usage` block of `getLicenseData` (part_000 lines 94-114). -/
structure UsageBlock where
  activeWorkflowTriggers : UsageEntry
  workflowsHavingEvaluations : UsageEntry
  users : UsageEntry
  «variables» : UsageEntry
  deriving Repr, DecidableEq

/-- The `license` block of `getLicenseData` (part_000 lines 115-120). -/
structure LicenseBlock where
  planId : String
  planName : String
  isValidLicense : Bool
  validConsumerId : String
  deriving Repr, DecidableEq

/-- The `features` block of `getLicenseData` (part_000 lines 121-132). -/
structure FeaturesBlock where
  «variables» : Bool
  advancedPermissions : Bool
  sourceControl : Bool
  auditLogs : Bool
  sso : Bool
  logStreaming : Bool
  workflowHistory : Bool
  debugInEditor : Bool
  binaryDataS3 : Bool
  multipleMainInstances : Bool
  deriving Repr, DecidableEq

/-- The full return value of `getLicenseData`. -/
structure LicenseData where
  usage : UsageBlock
  license : LicenseBlock
  features : FeaturesBlock
  deriving Repr, DecidableEq

/-- The observable state of the workflow repository collaborator.  The code
queries `getActiveTriggerCount` and `getWorkflowsWithEvaluationCount`; the
real current user count and variable count exist in the system but are never
queried by `getLicenseData`. -/
structure WorkflowStoreState where
  activeTriggerCount : Nat
  workflowsWithEvaluationCount : Nat
  userCount : Nat
  variableCount : Nat
  deriving Repr, DecidableEq

/-- `getLicenseData` (part_000 lines 87-134): awaits the two repository
counts, then returns the canned enterprise payload.  `users.value` is the
literal 1 and `variables.value` the literal 0 from the source; every limit is
`Number.MAX_SAFE_INTEGER`. -/
def getLicenseData (ws : WorkflowStoreState) : LicenseData :=
  let triggerCount := ws.activeTriggerCount
  let workflowsWithEvaluationsCount := ws.workflowsWithEvaluationCount
  { usage :=
      { activeWorkflowTriggers := { value := triggerCount, limit := maxSafeInteger }
        workflowsHavingEvaluations :=
          { value := workflowsWithEvaluationsCount, limit := maxSafeInteger }
        users := { value := 1, limit := maxSafeInteger }
        «variables» := { value := 0, limit := maxSafeInteger } }
    license :=
      { planId := "enterprise-unlimited"
        planName := "Enterprise"
        isValidLicense := true
        validConsumerId := "enterprise-consumer" }
    features :=
      { «variables» := true
        advancedPermissions := true
        sourceControl := true
        auditLogs := true
        sso := true
        logStreaming := true
        workflowHistory := true
        debugInEditor := true
        binaryDataS3 := true
        multipleMainInstances := true } }

/-- Outcome of one lifecycle operation: the resolved value together with the
events emitted and the log lines written during the call.  A thrown
exception would be `Except.error`; the active code never throws. -/
structure OpOutcome (α : Type) where
  value : α
  events : List DomainEvent
  logs : List LogEntry
  deriving Repr, DecidableEq

/-- `activateLicense` (part_000 lines 221-240): logs with the key redacted to
the literal string of three asterisks followed by hidden followed by three
asterisks, emits one `license-activated` event carrying the placeholder key,
and resolves; the original `license.activate` call is commented out. -/
def activateLicense (activationKey : String) : Except String (OpOutcome Unit) :=
  Except.ok
    { value := ()
      events :=
        [{ name := "license-activated"
           payload :=
             [("activationKey", FieldValue.s "enterprise-bypass-key"),
              ("planName", FieldValue.s "Enterprise")] }]
      logs :=
        [{ message := "License activation bypassed"
           fields := [("activationKey", FieldValue.s "***hidden***")] }] }

/-- `renewLicense` (part_000 lines 242-261): logs, emits one
`license-renewal-attempted` event with `success: true`, and resolves; the
original `license.renew` call is commented out. -/
def renewLicense : Except String (OpOutcome Unit) :=
  Except.ok
    { value := ()
      events :=
        [{ name := "license-renewal-attempted"
           payload := [("success", FieldValue.b true)] }]
      logs := [{ message := "License renewal bypassed", fields := [] }] }

/-- The structured return value of `registerCommunityEdition`. -/
structure RegisterResult where
  title : String
  text : String
  deriving Repr, DecidableEq

/-- Input record of `registerCommunityEdition` (part_000 lines 154-165). -/
structure RegisterInput where
  userId : String
  email : String
  instanceId : String
  instanceUrl : String
  licenseType : String
  deriving Repr, DecidableEq

/-- `registerCommunityEdition` (part_000 lines 154-214): logs the request,
emits one `license-community-plus-registered` event with the placeholder
license key, and resolves with the canned success payload; the original
network-backed implementation is commented out. -/
def registerCommunityEdition (input : RegisterInput) :
    Except String (OpOutcome RegisterResult) :=
  Except.ok
    { value :=
        { title := "Enterprise Features Enabled"
          text := "All enterprise features have been enabled for this instance." }
      events :=
        [{ name := "license-community-plus-registered"
           payload :=
             [("userId", FieldValue.s input.userId),
              ("email", FieldValue.s input.email),
              ("licenseKey", FieldValue.s "enterprise-bypass-key")] }]
      logs :=
        [{ message := "Community edition registration (bypassed)"
           fields :=
             [("userId", FieldValue.s input.userId),
              ("email", FieldValue.s input.email),
              ("instanceId", FieldValue.s input.instanceId),
              ("licenseType", FieldValue.s input.licenseType)] }] }

/-- A forced value installed by the override: a boolean flag, a numeric
limit, a string constant, or the main-plan object. -/
inductive ForcedValue where
  | b (v : Bool)
  | n (v : Nat)
  | s (v : String)
  | plan (p : MainPlan)
  deriving Repr, DecidableEq

/-- The complete table of entries installed by the override: the patched
license getters (part_000 lines 43-82) followed by the forced-constant store
values of the frontend settings store (settings.store.ts lines 64, 78, 173,
188, 195-212), each mapped to the constant the source forces. -/
def overrideTable : List (String × ForcedValue) :=
  [("getTriggerLimit", ForcedValue.n maxSafeInteger),
   ("getPlanName", ForcedValue.s "Enterprise"),
   ("isFeatureEnabled", ForcedValue.b true),
   ("hasValidLicense", ForcedValue.b true),
   ("isVariablesEnabled", ForcedValue.b true),
   ("getVariablesLimit", ForcedValue.n maxSafeInteger),
   ("isAdvancedPermissionsEnabled", ForcedValue.b true),
   ("isSourceControlEnabled", ForcedValue.b true),
   ("isAuditLogsEnabled", ForcedValue.b true),
   ("isSsoEnabled", ForcedValue.b true),
   ("isLogStreamingEnabled", ForcedValue.b true),
   ("isApiDisabled", ForcedValue.b false),
   ("isWorkflowHistoryEnabled", ForcedValue.b true),
   ("isDebugInEditorEnabled", ForcedValue.b true),
   ("isBinaryDataS3Enabled", ForcedValue.b true),
   ("isMultipleMainInstancesEnabled", ForcedValue.b true),
   ("getMainPlan",
     ForcedValue.plan
       { productId := "enterprise-unlimited"
         productName := "Enterprise Unlimited"
         productMetadata := [] }),
   ("getUsersLimit", ForcedValue.n maxSafeInteger),
   ("isWithinUsersLimit", ForcedValue.b true),
   ("getWorkflowLimit", ForcedValue.n maxSafeInteger),
   ("isWithinWorkflowLimit", ForcedValue.b true),
   ("getManagementJwt", ForcedValue.s "enterprise-bypass-token"),
   ("licenseState.getMaxWorkflowsWithEvaluations", ForcedValue.n maxSafeInteger),
   ("licenseState.isFeatureEnabled", ForcedValue.b true),
   ("store.planName", ForcedValue.s "Enterprise"),
   ("store.isEnterpriseFeatureEnabled", ForcedValue.b true),
   ("store.isWorkerViewAvailable", ForcedValue.b true),
   ("store.isCommunityPlan", ForcedValue.b false),
   ("store.isVariablesEnabled", ForcedValue.b true),
   ("store.canCreateVariables", ForcedValue.b true),
   ("store.isAdvancedPermissionsEnabled", ForcedValue.b true),
   ("store.isSourceControlEnabled", ForcedValue.b true),
   ("store.isAuditLogsEnabled", ForcedValue.b true),
   ("store.isSsoEnabled", ForcedValue.b true),
   ("store.isLogStreamingEnabled", ForcedValue.b true),
   ("store.isWorkflowHistoryEnabled", ForcedValue.b true),
   ("store.isDebugInEditorEnabled", ForcedValue.b true),
   ("store.isBinaryDataS3Enabled", ForcedValue.b true),
   ("store.isMultipleMainInstancesEnabled", ForcedValue.b true),
   ("store.isAdvancedExecutionFiltersEnabled", ForcedValue.b true),
   ("store.isLdapEnabled", ForcedValue.b true),
   ("store.isSamlEnabled", ForcedValue.b true),
   ("store.isExternalSecretsEnabled", ForcedValue.b true),
   ("store.isWorkflowSharingEnabled", ForcedValue.b true),
   ("store.isProjectsEnabled", ForcedValue.b true),
   ("store.isRbacEnabled", ForcedValue.b true)]

/-- The reading of the override table asserted by the spec: every boolean
entry is forced `true` and every numeric entry is the unlimited sentinel
(entries of other shapes are outside the assertion). -/
def forcedAsClaimed : ForcedValue → Bool
  | ForcedValue.b v => v
  | ForcedValue.n v => v == maxSafeInteger
  | _ => true

/-- The corrected reading: the two negative-polarity flags `isApiDisabled`
and `isCommunityPlan` are forced `false`; every other boolean entry is
forced `true`; every numeric entry is the unlimited sentinel. -/
def forcedAsAmended (entry : String × ForcedValue) : Bool :=
  if entry.1 == "isApiDisabled" || entry.1 == "store.isCommunityPlan" then
    entry.2 == ForcedValue.b false
  else
    forcedAsClaimed entry.2

end Backend

namespace Frontend

/-- The `enterprise` sub-object of the settings payload, with the capability
keys the ingestion routine recognizes and forces
(settings.store.ts lines 259-272). -/
structure EnterpriseSettings where
  «variables» : Bool
  advancedPermissions : Bool
  sourceControl : Bool
  auditLogs : Bool
  sso : Bool
  logStreaming : Bool
  workflowHistory : Bool
  debugInEditor : Bool
  binaryDataS3 : Bool
  multipleMainInstances : Bool
  workerView : Bool
  deriving Repr, DecidableEq

/-- The `license` sub-object of the settings payload, with the plan fields
the ingestion routine forces (settings.store.ts lines 275-280) and the
`consumerId` read by the `consumerId` computed. -/
structure LicenseSettings where
  planName : String
  isValidLicense : Bool
  validConsumerId : String
  consumerId : String
  deriving Repr, DecidableEq

/-- The `userManagement` sub-object (`IUserManagementSettings`). -/
structure UserManagementSettings where
  quota : Int
  showSetupOnFirstLoad : Bool
  smtpSetup : Bool
  deriving Repr, DecidableEq

/-- The `publicApi` sub-object copied into the store `api` ref. -/
structure ApiSettings where
  enabled : Bool
  latestVersion : Nat
  path : String
  swaggerUiEnabled : Bool
  deriving Repr, DecidableEq

/-- The `templates` sub-object (enabled flag and host). -/
structure TemplatesSettings where
  enabled : Bool
  host : String
  deriving Repr, DecidableEq

/-- The settings payload fetched from the server, restricted to the fields
the store reads or writes in the claims under study. -/
structure FrontendSettings where
  enterprise : EnterpriseSettings
  license : LicenseSettings
  userManagement : UserManagementSettings
  publicApi : ApiSettings
  mfaEnabled : Bool
  foldersEnabled : Bool
  templates : TemplatesSettings
  communityNodesEnabled : Bool
  unverifiedCommunityNodesEnabled : Bool
  allowedModules : List String
  telemetryEnabled : Bool
  saveDataErrorExecution : String
  saveDataSuccessExecution : String
  saveExecutionProgress : Bool
  saveManualExecutions : Bool
  deriving Repr, DecidableEq

/-- The `{} as FrontendSettings` cast used when the `settings` ref is created
and again by `reset()`: every field at its JS-undefined-like default. -/
def emptyFrontendSettings : FrontendSettings :=
  { enterprise :=
      { «variables» := false, advancedPermissions := false, sourceControl := false
        auditLogs := false, sso := false, logStreaming := false
        workflowHistory := false, debugInEditor := false, binaryDataS3 := false
        multipleMainInstances := false, workerView := false }
    license :=
      { planName := "", isValidLicense := false, validConsumerId := "", consumerId := "" }
    userManagement := { quota := -1, showSetupOnFirstLoad := false, smtpSetup := false }
    publicApi := { enabled := false, latestVersion := 0, path := "/", swaggerUiEnabled := false }
    mfaEnabled := false
    foldersEnabled := false
    templates := { enabled := false, host := "" }
    communityNodesEnabled := false
    unverifiedCommunityNodesEnabled := false
    allowedModules := []
    telemetryEnabled := false
    saveDataErrorExecution := ""
    saveDataSuccessExecution := ""
    saveExecutionProgress := false
    saveManualExecutions := false }

/-- Mutable state of the settings store: the refs declared at the top of
`useSettingsStore` (settings.store.ts lines 33-57), restricted to those the
claims touch. -/
structure StoreState where
  initialized : Bool
  settings : FrontendSettings
  userManagement : UserManagementSettings
  templatesEndpointHealthy : Bool
  api : ApiSettings
  mfaEnabled : Bool
  foldersEnabled : Bool
  saveDataErrorExecution : String
  saveDataSuccessExecution : String
  saveManualExecutions : Bool
  saveDataProgressExecution : Bool
  deriving Repr, DecidableEq

/-- The store state right after `useSettingsStore` sets up its refs
(settings.store.ts lines 33-57): in particular
`templatesEndpointHealthy = ref(false)`. -/
def initialState : StoreState :=
  { initialized := false
    settings := emptyFrontendSettings
    userManagement := { quota := -1, showSetupOnFirstLoad := false, smtpSetup := false }
    templatesEndpointHealthy := false
    api := { enabled := false, latestVersion := 0, path := "/", swaggerUiEnabled := false }
    mfaEnabled := false
    foldersEnabled := false
    saveDataErrorExecution := "all"
    saveDataSuccessExecution := "all"
    saveManualExecutions := false
    saveDataProgressExecution := false }

/-- The in-place patch `setSettings` applies to the fetched payload
(settings.store.ts lines 257-281): the spread forces the eleven recognized
enterprise capability keys to `true` and the license plan fields to the
enterprise constants, preserving every other payload field. -/
def patchPayload (p : FrontendSettings) : FrontendSettings :=
  { p with
      enterprise :=
        { p.enterprise with
            «variables» := true, advancedPermissions := true, sourceControl := true
            auditLogs := true, sso := true, logStreaming := true
            workflowHistory := true, debugInEditor := true, binaryDataS3 := true
            multipleMainInstances := true, workerView := true }
      license :=
        { p.license with
            planName := "Enterprise"
            isValidLicense := true
            validConsumerId := "enterprise-consumer" } }

/-- `setSettings` (settings.store.ts lines 246-297): stores the payload,
copies `userManagement` (coercing `showSetupOnFirstLoad` to boolean),
`publicApi`, `mfa.enabled` and `folders.enabled`, then mutates the stored
payload in place with the enterprise patch.  The trailing `versionCli`
forward and the insecure-connection `document.write` touch no store state. -/
def setSettings (newSettings : FrontendSettings) (s : StoreState) : StoreState :=
  { s with
      settings := patchPayload newSettings
      userManagement := newSettings.userManagement
      api := newSettings.publicApi
      mfaEnabled := newSettings.mfaEnabled
      foldersEnabled := newSettings.foldersEnabled }

/-- `planName` computed (settings.store.ts line 64): hard-wired. -/
def planName (_s : StoreState) : String := "Enterprise"

/-- `isEnterpriseFeatureEnabled` computed (line 78): a function constantly
`true`, whatever feature name it is applied to. -/
def isEnterpriseFeatureEnabled (_s : StoreState) : String → Bool := fun _ => true

/-- `isWorkerViewAvailable` computed (line 173): hard-wired. -/
def isWorkerViewAvailable (_s : StoreState) : Bool := true

/-- `isCommunityPlan` computed (line 188): hard-wired. -/
def isCommunityPlan (_s : StoreState) : Bool := false

/-- `isTemplatesEndpointReachable` computed (line 155). -/
def isTemplatesEndpointReachable (s : StoreState) : Bool :=
  s.templatesEndpointHealthy

/-- The eighteen hard-wired enterprise-feature computed properties
(settings.store.ts lines 195-212): each ignores the state entirely. -/
def isVariablesEnabled (_s : StoreState) : Bool := true

/-- `canCreateVariables` computed (line 196): hard-wired. -/
def canCreateVariables (_s : StoreState) : Bool := true

/-- `isAdvancedPermissionsEnabled` computed (line 197): hard-wired. -/
def isAdvancedPermissionsEnabled (_s : StoreState) : Bool := true

/-- `isSourceControlEnabled` computed (line 198): hard-wired. -/
def isSourceControlEnabled (_s : StoreState) : Bool := true

/-- `isAuditLogsEnabled` computed (line 199): hard-wired. -/
def isAuditLogsEnabled (_s : StoreState) : Bool := true

/-- `isSsoEnabled` computed (line 200): hard-wired. -/
def isSsoEnabled (_s : StoreState) : Bool := true

/-- `isLogStreamingEnabled` computed (line 201): hard-wired. -/
def isLogStreamingEnabled (_s : StoreState) : Bool := true

/-- `isWorkflowHistoryEnabled` computed (line 202): hard-wired. -/
def isWorkflowHistoryEnabled (_s : StoreState) : Bool := true

/-- `isDebugInEditorEnabled` computed (line 203): hard-wired. -/
def isDebugInEditorEnabled (_s : StoreState) : Bool := true

/-- `isBinaryDataS3Enabled` computed (line 204): hard-wired. -/
def isBinaryDataS3Enabled (_s : StoreState) : Bool := true

/-- `isMultipleMainInstancesEnabled` computed (line 205): hard-wired. -/
def isMultipleMainInstancesEnabled (_s : StoreState) : Bool := true

/-- `isAdvancedExecutionFiltersEnabled` computed (line 206): hard-wired. -/
def isAdvancedExecutionFiltersEnabled (_s : StoreState) : Bool := true

/-- `isLdapEnabled` computed (line 207): hard-wired. -/
def isLdapEnabled (_s : StoreState) : Bool := true

/-- `isSamlEnabled` computed (line 208): hard-wired. -/
def isSamlEnabled (_s : StoreState) : Bool := true

/-- `isExternalSecretsEnabled` computed (line 209): hard-wired. -/
def isExternalSecretsEnabled (_s : StoreState) : Bool := true

/-- `isWorkflowSharingEnabled` computed (line 210): hard-wired. -/
def isWorkflowSharingEnabled (_s : StoreState) : Bool := true

/-- `isProjectsEnabled` computed (line 211): hard-wired. -/
def isProjectsEnabled (_s : StoreState) : Bool := true

/-- `isRbacEnabled` computed (line 212): hard-wired. -/
def isRbacEnabled (_s : StoreState) : Bool := true

/-- `hasFeature` (settings.store.ts lines 443-445): returns `true` for any
feature name. -/
def hasFeature (_featureName : String) : Bool := true

/-- `isFeatureEnabled` (lines 447-449): returns `true` for any feature
name. -/
def isFeatureEnabled (_featureName : String) : Bool := true

/-- `getFeatureFlag` (lines 451-453): returns `true` for any flag name. -/
def getFeatureFlag (_flagName : String) : Bool := true

/-- How the awaited `testHealthEndpoint` probe behaves relative to the
2-second timer it is raced against. -/
inductive ProbeOutcome where
  | resolves
  | rejects
  | neverSettles
  deriving Repr, DecidableEq

/-- `testTemplatesEndpoint` (settings.store.ts lines 404-408): races the
probe against a 2-second timer that rejects.  Only when the race resolves is
`templatesEndpointHealthy` assigned `true`; when the probe rejects, or never
settles so that the timer rejection wins the race, the awaited race rejects
and the rejection propagates out of the function (there is no catch). -/
def testTemplatesEndpoint (outcome : ProbeOutcome) (s : StoreState) :
    StoreState × Except Unit Unit :=
  match outcome with
  | ProbeOutcome.resolves => ({ s with templatesEndpointHealthy := true }, Except.ok ())
  | ProbeOutcome.rejects => (s, Except.error ())
  | ProbeOutcome.neverSettles => (s, Except.error ())

/-- `reset` (settings.store.ts lines 415-417): re-casts `settings` to the
empty object; no other ref is touched. -/
def reset (s : StoreState) : StoreState :=
  { s with settings := emptyFrontendSettings }

/-- `stopShowingSetupPage` (lines 377-379). -/
def stopShowingSetupPage (s : StoreState) : StoreState :=
  { s with userManagement := { s.userManagement with showSetupOnFirstLoad := false } }

/-- `disableTemplates` (lines 381-389): spreads a copy of `settings` with
`templates.enabled` forced off. -/
def disableTemplates (s : StoreState) : StoreState :=
  { s with
      settings :=
        { s.settings with templates := { s.settings.templates with enabled := false } } }

/-- `setAllowedModules` (lines 299-301). -/
def setAllowedModules (allowedModules : List String) (s : StoreState) : StoreState :=
  { s with settings := { s.settings with allowedModules := allowedModules } }

/-- `setSaveDataErrorExecution` (lines 303-305). -/
def setSaveDataErrorExecution (v : String) (s : StoreState) : StoreState :=
  { s with saveDataErrorExecution := v }

/-- `setSaveDataSuccessExecution` (lines 307-309). -/
def setSaveDataSuccessExecution (v : String) (s : StoreState) : StoreState :=
  { s with saveDataSuccessExecution := v }

/-- `setSaveManualExecutions` (lines 311-313). -/
def setSaveManualExecutions (v : Bool) (s : StoreState) : StoreState :=
  { s with saveManualExecutions := v }

/-- `setSaveDataProgressExecution` (lines 315-317). -/
def setSaveDataProgressExecution (v : Bool) (s : StoreState) : StoreState :=
  { s with saveDataProgressExecution := v }

/-- `getSettings` (settings.store.ts lines 319-353), with the payload the
settings fetch resolved with as an explicit argument;  `none` means the
fetch rejected, in which case `getSettings` performs no state change before
re-raising.  On success it runs `setSettings`, re-copies the community-node
flags onto the stored payload, and forwards the allowed-modules and
save-data fields; the remaining calls target the root and versions stores,
not this state. -/
def getSettingsOp (fetched : Option FrontendSettings) (s : StoreState) : StoreState :=
  match fetched with
  | none => s
  | some p =>
      let s1 := setSettings p s
      let s2 :=
        { s1 with
            settings :=
              { s1.settings with
                  communityNodesEnabled := p.communityNodesEnabled
                  unverifiedCommunityNodesEnabled := p.unverifiedCommunityNodesEnabled } }
      let s3 := setAllowedModules p.allowedModules s2
      let s4 := setSaveDataErrorExecution p.saveDataErrorExecution s3
      let s5 := setSaveDataSuccessExecution p.saveDataSuccessExecution s4
      let s6 := setSaveDataProgressExecution p.saveExecutionProgress s5
      setSaveManualExecutions p.saveManualExecutions s6

/-- `initialize` (settings.store.ts lines 355-375): returns early when
already initialized; otherwise runs `getSettings` and, only when the fetch
succeeded, marks the store initialized (a fetch failure shows a toast and
re-raises, leaving `initialized` untouched). -/
def initializeStore (fetched : Option FrontendSettings) (s : StoreState) : StoreState :=
  if s.initialized then s
  else
    match fetched with
    | none => getSettingsOp none s
    | some p => { getSettingsOp (some p) s with initialized := true }

/-- One state-mutating operation of the settings store, with the outcome of
any awaited collaborator as an explicit argument. -/
inductive StoreOp where
  | setSettingsOp (p : FrontendSettings)
  | getSettingsFetch (fetched : Option FrontendSettings)
  | initializeOp (fetched : Option FrontendSettings)
  | setAllowedModulesOp (mods : List String)
  | setSaveDataErrorExecutionOp (v : String)
  | setSaveDataSuccessExecutionOp (v : String)
  | setSaveManualExecutionsOp (v : Bool)
  | setSaveDataProgressExecutionOp (v : Bool)
  | stopShowingSetupPageOp
  | disableTemplatesOp
  | testTemplatesEndpointOp (outcome : ProbeOutcome)
  | resetOp
  deriving Repr, DecidableEq

/-- The state after running one store operation (`submitContactInfo`,
`getTimezones` and `getModuleSettings` write no field of this state and are
omitted). -/
def applyOp (op : StoreOp) (s : StoreState) : StoreState :=
  match op with
  | StoreOp.setSettingsOp p => setSettings p s
  | StoreOp.getSettingsFetch fetched => getSettingsOp fetched s
  | StoreOp.initializeOp fetched => initializeStore fetched s
  | StoreOp.setAllowedModulesOp mods => setAllowedModules mods s
  | StoreOp.setSaveDataErrorExecutionOp v => setSaveDataErrorExecution v s
  | StoreOp.setSaveDataSuccessExecutionOp v => setSaveDataSuccessExecution v s
  | StoreOp.setSaveManualExecutionsOp v => setSaveManualExecutions v s
  | StoreOp.setSaveDataProgressExecutionOp v => setSaveDataProgressExecution v s
  | StoreOp.stopShowingSetupPageOp => stopShowingSetupPage s
  | StoreOp.disableTemplatesOp => disableTemplates s
  | StoreOp.testTemplatesEndpointOp outcome => (testTemplatesEndpoint outcome s).1
  | StoreOp.resetOp => reset s

end Frontend

/-! ## Claim theorems -/

/-- Claim C1: for every feature key in the known enumeration, after the
settings store ingests any settings payload — including one reporting every
key explicitly false — the corresponding enablement getter
(`isVariablesEnabled`, ..., `isWorkerViewAvailable`, and
`isEnterpriseFeatureEnabled` applied to any key) returns `true`. -/
theorem c1_enablement_getters_true_after_ingest
    (p : Frontend.FrontendSettings) (s : Frontend.StoreState) :
    Frontend.isVariablesEnabled (Frontend.setSettings p s) = true ∧
    Frontend.isAdvancedPermissionsEnabled (Frontend.setSettings p s) = true ∧
    Frontend.isSourceControlEnabled (Frontend.setSettings p s) = true ∧
    Frontend.isAuditLogsEnabled (Frontend.setSettings p s) = true ∧
    Frontend.isSsoEnabled (Frontend.setSettings p s) = true ∧
    Frontend.isLogStreamingEnabled (Frontend.setSettings p s) = true ∧
    Frontend.isWorkflowHistoryEnabled (Frontend.setSettings p s) = true ∧
    Frontend.isDebugInEditorEnabled (Frontend.setSettings p s) = true ∧
    Frontend.isBinaryDataS3Enabled (Frontend.setSettings p s) = true ∧
    Frontend.isMultipleMainInstancesEnabled (Frontend.setSettings p s) = true ∧
    Frontend.isAdvancedExecutionFiltersEnabled (Frontend.setSettings p s) = true ∧
    Frontend.isLdapEnabled (Frontend.setSettings p s) = true ∧
    Frontend.isSamlEnabled (Frontend.setSettings p s) = true ∧
    Frontend.isExternalSecretsEnabled (Frontend.setSettings p s) = true ∧
    Frontend.isWorkflowSharingEnabled (Frontend.setSettings p s) = true ∧
    Frontend.isProjectsEnabled (Frontend.setSettings p s) = true ∧
    Frontend.isRbacEnabled (Frontend.setSettings p s) = true ∧
    Frontend.isWorkerViewAvailable (Frontend.setSettings p s) = true ∧
    (∀ key : String,
      Frontend.isEnterpriseFeatureEnabled (Frontend.setSettings p s) key = true) :=
  ⟨rfl, rfl, rfl, rfl, rfl, rfl, rfl, rfl, rfl, rfl, rfl, rfl, rfl, rfl, rfl, rfl,
   rfl, rfl, fun _ => rfl⟩

/-- Claim C2: `hasFeature`, `isFeatureEnabled` and `getFeatureFlag` return
`true` for every input string, including unknown and empty names. -/
theorem c2_generic_lookups_always_true (x : String) :
    Frontend.hasFeature x = true ∧
    Frontend.isFeatureEnabled x = true ∧
    Frontend.getFeatureFlag x = true :=
  ⟨rfl, rfl, rfl⟩

/-- Claim C3: for every input — including an empty or malformed activation
key — `activateLicense`, `renewLicense` and `registerCommunityEdition`
resolve successfully without throwing, and each emits exactly one
corresponding lifecycle event carrying a success indicator. -/
theorem c3_lifecycle_ops_resolve_and_emit_once
    (activationKey : String) (input : Backend.RegisterInput) :
    (∃ out, Backend.activateLicense activationKey = Except.ok out ∧
        out.events.map DomainEvent.name = ["license-activated"]) ∧
    (∃ out, Backend.renewLicense = Except.ok out ∧
        out.events =
          [{ name := "license-renewal-attempted"
             payload := [("success", FieldValue.b true)] }]) ∧
    (∃ out, Backend.registerCommunityEdition input = Except.ok out ∧
        out.events.map DomainEvent.name = ["license-community-plus-registered"]) :=
  ⟨⟨_, rfl, rfl⟩, ⟨_, rfl, rfl⟩, ⟨_, rfl, rfl⟩⟩

/-- Claim C4: after `setSettings` ingests any payload, the stored payload is
the in-place-patched payload on which every recognized capability key is
`true` and the plan fields are the enterprise constants; in particular, for
a payload with `enterprise.sso = false` and `license.planName = "Community"`
the store reads back `"Enterprise"` and `true`. -/
theorem c4_setSettings_forces_payload
    (p : Frontend.FrontendSettings) (s : Frontend.StoreState) :
    ((Frontend.setSettings p s).settings = Frontend.patchPayload p) ∧
    ((Frontend.setSettings p s).settings.enterprise =
      { «variables» := true, advancedPermissions := true, sourceControl := true
        auditLogs := true, sso := true, logStreaming := true
        workflowHistory := true, debugInEditor := true, binaryDataS3 := true
        multipleMainInstances := true, workerView := true }) ∧
    ((Frontend.setSettings p s).settings.license.planName = "Enterprise") ∧
    ((Frontend.setSettings p s).settings.license.isValidLicense = true) ∧
    ((Frontend.setSettings p s).settings.license.validConsumerId =
      "enterprise-consumer") ∧
    ((Frontend.setSettings
        { Frontend.emptyFrontendSettings with
            enterprise := { Frontend.emptyFrontendSettings.enterprise with sso := false }
            license :=
              { Frontend.emptyFrontendSettings.license with planName := "Community" } }
        Frontend.initialState).settings.license.planName = "Enterprise") ∧
    ((Frontend.setSettings
        { Frontend.emptyFrontendSettings with
            enterprise := { Frontend.emptyFrontendSettings.enterprise with sso := false }
            license :=
              { Frontend.emptyFrontendSettings.license with planName := "Community" } }
        Frontend.initialState).settings.enterprise.sso = true) :=
  ⟨rfl, rfl, rfl, rfl, rfl, rfl, rfl⟩

/-- Claim C5, counterexample: with five users in the system, the usage record
reports `users.value = 1`, not the real current consumption; so not every
`value` field is the real, queried consumption. -/
theorem c5_counterexample :
    (Backend.getLicenseData
        { activeTriggerCount := 2, workflowsWithEvaluationCount := 1
          userCount := 5, variableCount := 3 }).usage.users.value = 1 ∧
    ({ activeTriggerCount := 2, workflowsWithEvaluationCount := 1
       userCount := 5, variableCount := 3 } : Backend.WorkflowStoreState).userCount = 5 ∧
    (Backend.getLicenseData
        { activeTriggerCount := 2, workflowsWithEvaluationCount := 1
          userCount := 5, variableCount := 3 }).usage.users.value ≠
      ({ activeTriggerCount := 2, workflowsWithEvaluationCount := 1
         userCount := 5, variableCount := 3 } : Backend.WorkflowStoreState).userCount :=
  ⟨rfl, rfl, by decide⟩

/-- Claim C5, amended: for every workflow-store state, the trigger and
evaluation `value` fields are the queried counts, while `users.value` is the
hard-coded 1 and `variables.value` the hard-coded 0; every one of the four
`limit` fields equals `Number.MAX_SAFE_INTEGER`. -/
theorem c5_usage_values_and_limits (ws : Backend.WorkflowStoreState) :
    ((Backend.getLicenseData ws).usage.activeWorkflowTriggers.value =
      ws.activeTriggerCount) ∧
    ((Backend.getLicenseData ws).usage.workflowsHavingEvaluations.value =
      ws.workflowsWithEvaluationCount) ∧
    ((Backend.getLicenseData ws).usage.users.value = 1) ∧
    ((Backend.getLicenseData ws).usage.«variables».value = 0) ∧
    ((Backend.getLicenseData ws).usage.activeWorkflowTriggers.limit = maxSafeInteger) ∧
    ((Backend.getLicenseData ws).usage.workflowsHavingEvaluations.limit =
      maxSafeInteger) ∧
    ((Backend.getLicenseData ws).usage.users.limit = maxSafeInteger) ∧
    ((Backend.getLicenseData ws).usage.«variables».limit = maxSafeInteger) :=
  ⟨rfl, rfl, rfl, rfl, rfl, rfl, rfl, rfl⟩

/-- Claim C6, counterexample: when the probe never settles, the race is lost
to the rejecting 2-second timer and `testTemplatesEndpoint` rejects — the
failure is not swallowed, it propagates to the caller (here from the
concrete initial store state). -/
theorem c6_counterexample :
    (Frontend.testTemplatesEndpoint Frontend.ProbeOutcome.neverSettles
        Frontend.initialState).2 = Except.error () :=
  rfl

/-- Claim C6, amended: when the probe never resolves, after the 2-second
timer elapses `testTemplatesEndpoint` leaves the whole store state — in
particular `templatesEndpointHealthy` — at its pre-call value, and the
timer rejection propagates to the caller as a rejected promise. -/
theorem c6_timeout_keeps_flag_and_rejects (s : Frontend.StoreState) :
    (Frontend.StoreState.templatesEndpointHealthy
        (Frontend.testTemplatesEndpoint Frontend.ProbeOutcome.neverSettles s).1 =
      s.templatesEndpointHealthy) ∧
    ((Frontend.testTemplatesEndpoint Frontend.ProbeOutcome.neverSettles s).1 = s) ∧
    ((Frontend.testTemplatesEndpoint Frontend.ProbeOutcome.neverSettles s).2 =
      Except.error ()) :=
  ⟨rfl, rfl, rfl⟩

/-- Claim C7, counterexample: the override installs the boolean entry
`isApiDisabled` with forced value `false` (and likewise the store constant
`isCommunityPlan`), so it is not the case that every patched boolean entry
is forced `true`. -/
theorem c7_counterexample :
    ("isApiDisabled", Backend.ForcedValue.b false) ∈ Backend.overrideTable ∧
    ("store.isCommunityPlan", Backend.ForcedValue.b false) ∈ Backend.overrideTable ∧
    Backend.overrideTable.all (fun e => Backend.forcedAsClaimed e.2) = false := by
  decide

/-- Claim C7, amended: every entry installed by the override maps to a fixed
forced value; every patched boolean entry is forced `true` except the two
negative-polarity flags `isApiDisabled` and `isCommunityPlan`, which are
forced `false`, and every patched numeric entry is the unlimited sentinel
`Number.MAX_SAFE_INTEGER`. -/
theorem c7_override_table_amended :
    Backend.overrideTable.all Backend.forcedAsAmended = true := by
  decide

/-- Claim C8: `patchLicenseForEnterprise` is idempotent — installing the
override a second time on the already-patched license and license-state
objects yields exactly the same objects (the same forced getters, the
untouched slots unchanged), and the operation is total, so reapplying it
cannot fail. -/
theorem c8_patch_idempotent (l : Backend.License) (ls : Backend.LicenseState) :
    Backend.patchLicenseForEnterprise
        (Backend.patchLicenseForEnterprise l ls).1
        (Backend.patchLicenseForEnterprise l ls).2 =
      Backend.patchLicenseForEnterprise l ls :=
  rfl

/-- Claim C9: the observable outcome of `activateLicense` is independent of
the activation key — any two keys produce identical resolved values,
identical `license-activated` events (carrying the placeholder key), and
identical logs (with the key redacted); the supplied key never flows into
any output. -/
theorem c9_activation_key_noninterference (k1 k2 : String) :
    Backend.activateLicense k1 = Backend.activateLicense k2 ∧
    Backend.activateLicense k1 =
      Except.ok
        { value := ()
          events :=
            [{ name := "license-activated"
               payload :=
                 [("activationKey", FieldValue.s "enterprise-bypass-key"),
                  ("planName", FieldValue.s "Enterprise")] }]
          logs :=
            [{ message := "License activation bypassed"
               fields := [("activationKey", FieldValue.s "***hidden***")] }] } :=
  ⟨rfl, rfl⟩

/-- Claim C10: the templates-endpoint health flag starts `false` and is
monotone — no operation of the settings store ever transitions it from
`true` back to `false`; `testTemplatesEndpoint` only ever assigns `true` and
`reset` does not touch the flag. -/
theorem c10_templates_flag_monotone (op : Frontend.StoreOp) (s : Frontend.StoreState)
    (h : s.templatesEndpointHealthy = true) :
    (Frontend.applyOp op s).templatesEndpointHealthy = true ∧
    Frontend.initialState.templatesEndpointHealthy = false := by
  refine ⟨?_, rfl⟩
  cases op with
  | setSettingsOp p => exact h
  | getSettingsFetch fetched => cases fetched <;> exact h
  | initializeOp fetched =>
      cases fetched <;>
        · show (Frontend.initializeStore _ s).templatesEndpointHealthy = true
          unfold Frontend.initializeStore
          split <;> exact h
  | setAllowedModulesOp mods => exact h
  | setSaveDataErrorExecutionOp v => exact h
  | setSaveDataSuccessExecutionOp v => exact h
  | setSaveManualExecutionsOp v => exact h
  | setSaveDataProgressExecutionOp v => exact h
  | stopShowingSetupPageOp => exact h
  | disableTemplatesOp => exact h
  | testTemplatesEndpointOp outcome => cases outcome with
      | resolves => rfl
      | rejects => exact h
      | neverSettles => exact h
  | resetOp => exact h

/-- Witness for C10: a concrete store state with the flag already `true`,
kept `true` by a concrete operation (`reset`). -/
theorem c10_templates_flag_monotone_witness :
    ({ Frontend.initialState with templatesEndpointHealthy := true }
        : Frontend.StoreState).templatesEndpointHealthy = true ∧
    (Frontend.applyOp Frontend.StoreOp.resetOp
        { Frontend.initialState with
            templatesEndpointHealthy := true }).templatesEndpointHealthy = true :=
  ⟨rfl,
   (c10_templates_flag_monotone Frontend.StoreOp.resetOp
      { Frontend.initialState with templatesEndpointHealthy := true } rfl).1⟩
